import Mathlib

/-!
Verification of the state and view logic of `app.py`, a Streamlit study tool
over a table of interview question records.

The embedding models:
* the question table and the placeholder dataset of `create_demo_data`;
* the category filter and the free-text search (`filtered_df` / `display_df`),
  where the search uses pandas `Series.str.contains(query, case=False)`,
  i.e. Python `re.search` with `re.IGNORECASE`;
* the session state (`bookmarks`, `current_index`, `reveal`) and the button
  handlers of the flashcard page;
* the fail-soft data loader `load_data`.

Machine integers do not occur (ids are small Python ints, modeled as `Nat`);
rendering, CSS and the `st.cache_data` memoization are I/O and not modeled.
-/

namespace ReactMaster

/-- One row of the question table: columns `ID`, `Category`, `Question`,
`Answer` (app.py:101). -/
structure Question where
  id : Nat
  category : String
  question : String
  answer : String
deriving DecidableEq

/-- The placeholder dataset built by `create_demo_data` (app.py:70-92). The
function also writes this table back to the CSV file; that write is disk I/O
and is not modeled. -/
def demoTable : List Question :=
  [⟨1, "Basics", "What is React?", "A JS library for building UIs."⟩,
   ⟨2, "Hooks", "What is useEffect?", "A hook for side effects."⟩,
   ⟨3, "Components", "Difference between Class and Functional components?",
      "Class uses this.state, Func uses hooks."⟩,
   ⟨501, "System Design", "Design an Infinite Scroll feed.",
      "Use Virtualization (Windowing) and DOM recycling."⟩,
   ⟨502, "System Design", "Architect a Real-Time Chat App.",
      "Use WebSockets, Optimistic UI, and IndexedDB."⟩]

/-- The special characters of Python regular expressions (the `re` module):
`. ^ $ * + ? { } [ ] \ | ( )`.  The two brace characters are written by code
point. -/
def isRegexMeta (c : Char) : Bool :=
  ['.', '^', '$', '*', '+', '?', Char.ofNat 123, Char.ofNat 125,
   '[', ']', '\\', '|', '(', ')'].contains c

/-- One pattern atom against one subject character under `re.IGNORECASE`:
the `.` wildcard matches any character, any other character matches itself
up to ASCII case. -/
def atomMatches (p c : Char) : Bool :=
  p == '.' || p.toLower == c.toLower

/-- Does the pattern match a prefix of the subject (a regex match anchored at
the current position)? -/
def matchHere : List Char → List Char → Bool
  | [], _ => true
  | _ :: _, [] => false
  | p :: ps, c :: cs => atomMatches p c && matchHere ps cs

/-- Python `re.search`: try the anchored match at every start position. -/
def searchAux : List Char → List Char → Bool
  | pat, [] => matchHere pat []
  | pat, c :: cs => matchHere pat (c :: cs) || searchAux pat cs

/-- pandas `Series.str.contains(pat, case=False)` on one cell (app.py:177-178):
Python `re.search` with `re.IGNORECASE`, the query being interpreted as a
regular expression.  Modeled faithfully for the fragment of patterns built
from ordinary characters and the `.` wildcard; other metacharacters are
treated as literals here, so theorems about literal patterns carry a
metacharacter-freeness hypothesis. -/
def strContains (s pat : String) : Bool :=
  searchAux pat.data s.data

/-- The sidebar category filter (app.py:160-163): with a non-empty selection,
keep the rows whose `Category` is in the selection (`Series.isin`); an empty
selection is falsy in Python, so the table passes through unchanged.  The
`reset_index(drop=True)` only renumbers the pandas index and does not reorder
rows. -/
def categoryFilter (rows : List Question) (cats : List String) : List Question :=
  if cats.isEmpty then rows
  else rows.filter (fun r => cats.contains r.category)

/-- The Browse-page text search (app.py:175-181): with a non-empty query,
keep the rows whose `Question` or `Answer` matches the query under
`str.contains(query, case=False)`; the empty string is falsy in Python, so
the table passes through unchanged. -/
def searchFilter (rows : List Question) (query : String) : List Question :=
  if query.isEmpty then rows
  else rows.filter (fun r => strContains r.question query || strContains r.answer query)

/-- The Browse page's `display_df`: the category filter followed by the text
search (app.py:160-181). -/
def displayTable (rows : List Question) (cats : List String) (query : String) : List Question :=
  searchFilter (categoryFilter rows cats) query

/-- Modelled from the spec (section 4.2): the category predicate — the record
passes if the selected set is empty or its category is selected. -/
def specCatPred (cats : List String) (r : Question) : Bool :=
  cats.isEmpty || cats.contains r.category

/-- Case-insensitive prefix test on character lists (ASCII case via
`Char.toLower`). -/
def isPrefixCI : List Char → List Char → Bool
  | [], _ => true
  | _ :: _, [] => false
  | p :: ps, c :: cs => (p.toLower == c.toLower) && isPrefixCI ps cs

/-- Case-insensitive substring test on character lists. -/
def isSubstrCI : List Char → List Char → Bool
  | pat, [] => pat.isEmpty
  | pat, c :: cs => isPrefixCI pat (c :: cs) || isSubstrCI pat cs

/-- Modelled from the spec (section 4.2): the text predicate — the record
passes if the query is empty, or the query is a case-insensitive substring of
the question or of the answer. -/
def specTextPred (query : String) (r : Question) : Bool :=
  query.isEmpty || isSubstrCI query.data r.question.data
    || isSubstrCI query.data r.answer.data

/-- Modelled from the spec (section 4.2): a single stable filter by the
conjunction of the category predicate and the text predicate. -/
def specFilter (rows : List Question) (cats : List String) (query : String) : List Question :=
  rows.filter (fun r => specCatPred cats r && specTextPred query r)

/-- The session state initialized at app.py:111-118 (`random_mode` is written
once and never read, so it is omitted): `bookmarks` is a Python `set` of ids,
`current_index` the flashcard cursor, `reveal` the answer-visibility flag. -/
structure SessionState where
  bookmarks : Finset Nat
  current_index : Nat
  reveal : Bool
deriving DecidableEq

/-- Python `set.add` (app.py:211, 276): inserting an already-present element
leaves the set unchanged. -/
def pySetAdd (s : Finset Nat) (x : Nat) : Finset Nat :=
  insert x s

/-- Python `set.remove` (app.py:209, 274, 316): deletes the element when
present; raises `KeyError` when absent, modeled as `none`. -/
def pySetRemove (s : Finset Nat) (x : Nat) : Option (Finset Nat) :=
  if x ∈ s then some (s.erase x) else none

/-- The per-row bookmark toggle of the Browse page (app.py:202-212) and of the
flashcard page (app.py:258-277): remove when bookmarked, add otherwise. -/
def bmToggle (s : Finset Nat) (x : Nat) : Finset Nat :=
  if x ∈ s then s.erase x else insert x s

/-- The Bookmarks page's `bookmark_df` (app.py:307): the full table filtered
by membership of the id in the bookmark set (`Series.isin`), hence in table
order. -/
def bookmarkView (rows : List Question) (bms : Finset Nat) : List Question :=
  rows.filter (fun r => decide (r.id ∈ bms))

/-- The flashcard cursor recomputation (app.py:222-228): an empty view only
shows a warning, leaving the cursor untouched; otherwise a cursor at or past
the end of the view is reset to 0. -/
def recomputeCursor (cursor n : Nat) : Nat :=
  if n = 0 then cursor
  else if cursor ≥ n then 0 else cursor

/-- The Previous button handler (app.py:236-239) over a view of length `n`:
Python's `(current_index - 1) % n` is the least non-negative residue, which
for a cursor `c : Nat` and `n > 0` equals `(c + n - 1) % n`; the reveal flag
is cleared. -/
def prevButton (st : SessionState) (n : Nat) : SessionState :=
  { st with current_index := (st.current_index + n - 1) % n, reveal := false }

/-- The Next button handler (app.py:248-251): `(current_index + 1) % n`, and
the reveal flag is cleared. -/
def nextButton (st : SessionState) (n : Nat) : SessionState :=
  { st with current_index := (st.current_index + 1) % n, reveal := false }

/-- The Random Question button handler (app.py:242-245); `r` is the value
drawn by `random.randint(0, n - 1)`.  The reveal flag is cleared. -/
def randButton (st : SessionState) (r : Nat) : SessionState :=
  { st with current_index := r, reveal := false }

/-- One rerun's worth of flashcard-state recomputation before any button
handler acts: the cursor clamp of app.py:226-228 against the category-filtered
view (the search box does not exist on the flashcard page).  Bookmarks and
reveal flag are untouched. -/
def recomputeState (rows : List Question) (cats : List String) (st : SessionState) : SessionState :=
  { st with current_index :=
      recomputeCursor st.current_index (categoryFilter rows cats).length }

/-- What the flashcard page shows (app.py:222-288) for an already-recomputed
state: a warning on an empty view, else the record at the cursor
(`filtered_df.iloc[current_index]`) and, when the reveal flag is set, its
answer. -/
structure FlashOut where
  emptyWarning : Bool
  card : Option Question
  answer : Option String
deriving DecidableEq

def renderFlash (rows : List Question) (cats : List String) (st : SessionState) : FlashOut :=
  let fd := categoryFilter rows cats
  if fd.isEmpty then ⟨true, none, none⟩
  else
    let q := fd[st.current_index]?
    ⟨false, q, if st.reveal then q.map Question.answer else none⟩

/-- A full flashcard-page pass: clamp the cursor, then render. -/
def flashcardPage (rows : List Question) (cats : List String) (st : SessionState) : SessionState × FlashOut :=
  let st1 := recomputeState rows cats st
  (st1, renderFlash rows cats st1)

/-- The three study modes of the sidebar radio (app.py:131-134). -/
inductive Mode where
  | browse
  | flashcards
  | bookmarks
deriving DecidableEq

/-- What one rerun displays in each mode. -/
inductive View where
  | browse (shown : List Question)
  | flash (out : FlashOut)
  | bookmarks (shown : List Question)
deriving DecidableEq

/-- One rerun of the script, as a function of every page input: mode, table,
category selection, search-box content, and session state.  Returns the state
after the rerun's recomputation and what is displayed.  The search query is
read only on the Browse page, exactly as in the source, where `search_query`
is defined inside the Browse branch only (app.py:173). -/
def render (m : Mode) (rows : List Question) (cats : List String) (query : String)
    (st : SessionState) : SessionState × View :=
  match m with
  | Mode.browse => (st, View.browse (displayTable rows cats query))
  | Mode.flashcards =>
      ((flashcardPage rows cats st).1, View.flash (flashcardPage rows cats st).2)
  | Mode.bookmarks => (st, View.bookmarks (bookmarkView rows st.bookmarks))

/-- The three navigation buttons of the flashcard page; `rand r` carries the
value drawn by the random number generator. -/
inductive NavAction where
  | prev
  | next
  | rand (r : Nat)

/-- A flashcard-page rerun in which one navigation button was pressed
(app.py:222-251): on an empty view no buttons are rendered and the state is
unchanged; otherwise the cursor is first clamped (app.py:226-228), then the
button handler runs.  `random.randint(0, n - 1)` is modeled by reducing the
oracle value modulo the view length. -/
def flashNavStep (rows : List Question) (cats : List String) (st : SessionState)
    (a : NavAction) : SessionState :=
  let fd := categoryFilter rows cats
  if fd.isEmpty then st
  else
    let st1 := { st with current_index := recomputeCursor st.current_index fd.length }
    match a with
    | NavAction.prev => prevButton st1 fd.length
    | NavAction.next => nextButton st1 fd.length
    | NavAction.rand r => randButton st1 (r % fd.length)

/-- Flashcard navigation as a function of every page input, the Browse
search query included; as in the source, the flashcard branch never reads the
query. -/
def appNavStep (rows : List Question) (cats : List String) (query : String)
    (st : SessionState) (a : NavAction) : SessionState :=
  flashNavStep rows cats st a

/-- The columns `load_data` requires (app.py:101). -/
def requiredCols : List String :=
  ["ID", "Category", "Question", "Answer"]

/-- The possible states of the backing CSV file, as `load_data` distinguishes
them: absent; readable with some header `cols` and rows; unreadable
(`pd.read_csv` raising). -/
inductive Source where
  | missing
  | table (cols : List String) (rows : List Question)
  | unreadable

/-- What `load_data` produces: the table handed to the rest of the app, and
whether `st.error` was shown. -/
structure LoadResult where
  table : List Question
  errorShown : Bool
deriving DecidableEq

/-- `load_data` (app.py:94-108): a missing file is replaced by the placeholder
dataset of `create_demo_data`; a readable file missing one of the required
columns yields an error message and an empty table with the expected schema;
a read failure yields an error message and an empty table.  The
`st.cache_data` memoization is not modeled. -/
def load_data : Source → LoadResult
  | Source.missing => ⟨demoTable, false⟩
  | Source.table cols rows =>
      if requiredCols.all (fun c => cols.contains c) then ⟨rows, false⟩
      else ⟨[], true⟩
  | Source.unreadable => ⟨[], true⟩

/-! ## Helper lemmas -/

/-- On a metacharacter-free pattern, the anchored regex match is exactly the
case-insensitive prefix test. -/
theorem matchHere_eq_isPrefixCI (pat : List Char)
    (h : pat.all (fun c => !(isRegexMeta c)) = true) (s : List Char) :
    matchHere pat s = isPrefixCI pat s := by
  induction pat generalizing s with
  | nil => cases s <;> rfl
  | cons p ps ih =>
    rw [List.all_cons, Bool.and_eq_true] at h
    cases s with
    | nil => rfl
    | cons c cs =>
      have hdot : (p == '.') = false := by
        cases hpc : p == '.'
        · rfl
        · exfalso
          have hp : p = '.' := eq_of_beq hpc
          rw [hp] at h
          simp [isRegexMeta] at h
      simp only [matchHere, isPrefixCI, atomMatches, hdot, Bool.false_or]
      rw [ih h.2]

/-- On a metacharacter-free pattern, `re.search` is exactly the
case-insensitive substring test. -/
theorem searchAux_eq_isSubstrCI (pat : List Char)
    (h : pat.all (fun c => !(isRegexMeta c)) = true) (s : List Char) :
    searchAux pat s = isSubstrCI pat s := by
  induction s with
  | nil =>
    show matchHere pat [] = pat.isEmpty
    cases pat <;> rfl
  | cons c cs ih =>
    show (matchHere pat (c :: cs) || searchAux pat cs)
      = (isPrefixCI pat (c :: cs) || isSubstrCI pat cs)
    rw [matchHere_eq_isPrefixCI pat h, ih]

/-- The two-branch category filter is one stable filter by the spec's
category predicate. -/
theorem categoryFilter_eq_filter (rows : List Question) (cats : List String) :
    categoryFilter rows cats = rows.filter (fun r => specCatPred cats r) := by
  unfold categoryFilter specCatPred
  cases hc : cats.isEmpty <;> simp [hc]

/-- For a metacharacter-free query, the two-branch text search is one stable
filter by the spec's text predicate. -/
theorem searchFilter_eq_filter (rows : List Question) (query : String)
    (h : query.data.all (fun c => !(isRegexMeta c)) = true) :
    searchFilter rows query = rows.filter (fun r => specTextPred query r) := by
  unfold searchFilter specTextPred
  cases hq : query.isEmpty with
  | true => simp [hq]
  | false =>
    simp only [hq, Bool.false_or, if_neg Bool.false_ne_true]
    apply List.filter_congr
    intro r _
    rw [strContains, strContains, searchAux_eq_isSubstrCI _ h,
      searchAux_eq_isSubstrCI _ h]

/-- A clamped cursor is in range whenever the view is non-empty. -/
theorem recomputeCursor_lt (k m : Nat) (hm : 0 < m) : recomputeCursor k m < m := by
  unfold recomputeCursor
  rw [if_neg (by omega)]
  split
  · omega
  · omega

/-- Iterating the Next handler advances the cursor by the iteration count,
modulo the view length. -/
theorem nextButton_iterate (n k : Nat) (st : SessionState) :
    ((fun s => nextButton s n)^[k + 1] st).current_index
      = (st.current_index + (k + 1)) % n := by
  induction k generalizing st with
  | zero => simp [nextButton]
  | succ k ih =>
    rw [Function.iterate_succ_apply']
    show (((fun s => nextButton s n)^[k + 1] st).current_index + 1) % n = _
    rw [ih, Nat.mod_add_mod]
    congr 1

/-- Iterating the Previous handler retreats the cursor by the iteration
count, modulo the view length. -/
theorem prevButton_iterate (n k : Nat) (hn : 0 < n) (st : SessionState) :
    ((fun s => prevButton s n)^[k + 1] st).current_index
      = (st.current_index + (k + 1) * (n - 1)) % n := by
  induction k generalizing st with
  | zero =>
    show (st.current_index + n - 1) % n
      = (st.current_index + (0 + 1) * (n - 1)) % n
    congr 1
    omega
  | succ k ih =>
    rw [Function.iterate_succ_apply']
    show (((fun s => prevButton s n)^[k + 1] st).current_index + n - 1) % n = _
    rw [ih]
    have h1 : (st.current_index + (k + 1) * (n - 1)) % n + n - 1
        = (st.current_index + (k + 1) * (n - 1)) % n + (n - 1) := by omega
    rw [h1, Nat.mod_add_mod]
    congr 1
    have h2 : ∀ a d : Nat, a + (k + 1) * d + d = a + (k + 1 + 1) * d := by
      intro a d; ring
    exact h2 st.current_index (n - 1)

/-! ## Claim theorems -/

/-- A one-row table whose fields contain no `.` character, used to exhibit
the regex/substring divergence of the search filter. -/
def sampleRow : Question := ⟨1, "Basics", "abc", "xyz"⟩

/-- Claim C1, counterexample: with table `[sampleRow]`, no category filter and
query `"a.c"`, the code's filter keeps the row (the query is interpreted as a
regular expression and `a.c` matches `abc`), although `a.c` is not a
case-insensitive substring of the question `abc` or of the answer `xyz`; so
the filter does not return exactly the records satisfying the spec's text
predicate. -/
theorem filter_regex_counterexample :
    displayTable [sampleRow] [] "a.c" = [sampleRow] ∧
    specFilter [sampleRow] [] "a.c" = [] := by decide

/-- Claim C1, amended: for every table, category selection and query, if the
query contains no Python-regex metacharacter (so that its regex reading and
its substring reading coincide), the filtering operation returns exactly the
records satisfying both the category predicate and the case-insensitive
substring text predicate, as one stable filter in original table order. -/
theorem filter_correct (rows : List Question) (cats : List String) (query : String)
    (h : query.data.all (fun c => !(isRegexMeta c)) = true) :
    displayTable rows cats query = specFilter rows cats query ∧
    (displayTable rows cats query).Sublist rows := by
  have e : displayTable rows cats query = specFilter rows cats query := by
    unfold displayTable specFilter
    rw [categoryFilter_eq_filter, searchFilter_eq_filter _ _ h, List.filter_filter]
    exact List.filter_congr (fun r _ => Bool.and_comm _ _)
  refine ⟨e, e ▸ ?_⟩
  exact List.filter_sublist rows

/-- Witness for `filter_correct` at the demo table, category `Hooks` and
query `USEEFFECT` (spec Scenario B's case-insensitive search). -/
theorem filter_correct_witness :
    ("USEEFFECT".data.all (fun c => !(isRegexMeta c)) = true) ∧
    (displayTable demoTable ["Hooks"] "USEEFFECT"
        = specFilter demoTable ["Hooks"] "USEEFFECT" ∧
      (displayTable demoTable ["Hooks"] "USEEFFECT").Sublist demoTable) :=
  ⟨by decide, filter_correct demoTable ["Hooks"] "USEEFFECT" (by decide)⟩

/-- Claim C2, counterexample: when the filtered view recomputes to length 0
(`m = 0 ≤ k = 1`), the code shows a warning and never touches the cursor, so
the cursor does not become 0 as the claim states. -/
theorem clamp_empty_counterexample :
    ¬ ((0 : Nat) ≤ 1 → recomputeCursor 1 0 = 0) := by decide

/-- Claim C2, amended: for every cursor `k` and recomputed view length
`m > 0`, if `m ≤ k` the recomputation resets the cursor to 0; the recomputed
cursor is always in range when the view is non-empty; when the view recomputes
to length 0 the cursor is left unchanged (and unused, since no card is
rendered). -/
theorem clamp_correct (k m : Nat) (hm : 0 < m) :
    (m ≤ k → recomputeCursor k m = 0) ∧
    recomputeCursor k m < m ∧
    recomputeCursor k 0 = k := by
  refine ⟨?_, recomputeCursor_lt k m hm, ?_⟩
  · intro hmk
    unfold recomputeCursor
    rw [if_neg (by omega), if_pos (by omega)]
  · unfold recomputeCursor
    rw [if_pos rfl]

/-- Witness for `clamp_correct` at cursor 2 and view length 1. -/
theorem clamp_correct_witness :
    (0 < 1) ∧
    ((1 ≤ 2 → recomputeCursor 2 1 = 0) ∧
      recomputeCursor 2 1 < 1 ∧
      recomputeCursor 2 0 = 2) :=
  ⟨by decide, clamp_correct 2 1 (by decide)⟩

/-- Claim C3: whatever the prior state, each of the three navigation handlers
(Previous, Random, Next) clears the reveal flag. -/
theorem nav_resets_reveal (st : SessionState) (n r : Nat) :
    (nextButton st n).reveal = false ∧
    (prevButton st n).reveal = false ∧
    (randButton st r).reveal = false :=
  ⟨rfl, rfl, rfl⟩

/-- Claim C4: over a non-empty view of length `n` with an in-range cursor,
Next maps the cursor to `(c + 1) % n` and Previous to `(c - 1 + n) % n`
(written `(c + n - 1) % n` on naturals); `n` applications of Next, or of
Previous, return the cursor to its start; and Previous at cursor 0 of a
3-record view yields cursor 2. -/
theorem cursor_wraparound (n : Nat) (st : SessionState) (hc : st.current_index < n) :
    (nextButton st n).current_index = (st.current_index + 1) % n ∧
    (prevButton st n).current_index = (st.current_index + n - 1) % n ∧
    ((fun s => nextButton s n)^[n] st).current_index = st.current_index ∧
    ((fun s => prevButton s n)^[n] st).current_index = st.current_index ∧
    (∀ st2 : SessionState, st2.current_index = 0 →
      (prevButton st2 3).current_index = 2) := by
  have hn : 0 < n := Nat.lt_of_le_of_lt (Nat.zero_le _) hc
  obtain ⟨m, rfl⟩ : ∃ m, n = m + 1 := ⟨n - 1, by omega⟩
  refine ⟨rfl, rfl, ?_, ?_, ?_⟩
  · rw [nextButton_iterate, Nat.add_mod_right]
    exact Nat.mod_eq_of_lt hc
  · rw [prevButton_iterate _ _ hn]
    simp only [Nat.add_sub_cancel]
    rw [Nat.add_mul_mod_self_left]
    exact Nat.mod_eq_of_lt hc
  · intro st2 h2
    show (st2.current_index + 3 - 1) % 3 = 2
    rw [h2]

/-- A concrete session state for the wraparound witness. -/
def wState : SessionState := ⟨∅, 1, true⟩

/-- Witness for `cursor_wraparound` at view length 3 and cursor 1. -/
theorem cursor_wraparound_witness :
    wState.current_index < 3 ∧
    ((nextButton wState 3).current_index = (wState.current_index + 1) % 3 ∧
      (prevButton wState 3).current_index = (wState.current_index + 3 - 1) % 3 ∧
      ((fun s => nextButton s 3)^[3] wState).current_index = wState.current_index ∧
      ((fun s => prevButton s 3)^[3] wState).current_index = wState.current_index ∧
      (∀ st2 : SessionState, st2.current_index = 0 →
        (prevButton st2 3).current_index = 2)) :=
  ⟨by decide, cursor_wraparound 3 wState (by decide)⟩

/-- Claim C5, counterexample: a readable source that lacks required columns
makes `load_data` return an empty table (with an error message), not the
5-record built-in placeholder dataset the claim promises. -/
theorem load_missing_columns_counterexample :
    (load_data (Source.table ["ID"] [])).table = [] ∧ demoTable.length = 5 := by
  decide

/-- Claim C5, amended: a missing source yields the 5-record built-in
placeholder dataset with no error; a source missing a required column yields
a visible error and an empty table; an unreadable source yields a visible
error and an empty table; in every case a (non-null) table is returned. -/
theorem load_fail_soft (cols : List String) (rows : List Question)
    (h : (requiredCols.all fun c => cols.contains c) = false) :
    load_data Source.missing = ⟨demoTable, false⟩ ∧
    demoTable.length = 5 ∧
    load_data (Source.table cols rows) = ⟨[], true⟩ ∧
    load_data Source.unreadable = ⟨[], true⟩ := by
  refine ⟨rfl, rfl, ?_, rfl⟩
  show (if (requiredCols.all fun c => cols.contains c) = true
      then (⟨rows, false⟩ : LoadResult) else ⟨[], true⟩) = ⟨[], true⟩
  rw [h, if_neg Bool.false_ne_true]

/-- Witness for `load_fail_soft` at a source whose only column is `ID`. -/
theorem load_fail_soft_witness :
    ((requiredCols.all fun c => (["ID"] : List String).contains c) = false) ∧
    (load_data Source.missing = ⟨demoTable, false⟩ ∧
      demoTable.length = 5 ∧
      load_data (Source.table ["ID"] []) = ⟨[], true⟩ ∧
      load_data Source.unreadable = ⟨[], true⟩) :=
  ⟨by decide, load_fail_soft ["ID"] [] (by decide)⟩

/-- Claim C6, counterexample: the code's remove is Python `set.remove`, which
on an absent id raises `KeyError` (modeled `none`) instead of leaving the set
unchanged without error. -/
theorem remove_absent_raises :
    pySetRemove (∅ : Finset Nat) 3 = none ∧
    pySetRemove (∅ : Finset Nat) 3 ≠ some (∅ : Finset Nat) := by decide

/-- Claim C6, amended: adding an id twice leaves the bookmark set identical
to a single add; the code's remove is only ever invoked on a present id
(every call site is guarded by a membership test or draws the row from the
bookmark view), and there it deletes the id without error, as does the
user-facing toggle; an unguarded remove of an absent id would raise
`KeyError`. -/
theorem bookmark_idempotent (s : Finset Nat) (a b : Nat) (hb : b ∈ s) :
    pySetAdd (pySetAdd s a) a = pySetAdd s a ∧
    pySetRemove s b = some (s.erase b) ∧
    bmToggle s b = s.erase b := by
  refine ⟨?_, ?_, ?_⟩
  · simp [pySetAdd]
  · rw [pySetRemove, if_pos hb]
  · rw [bmToggle, if_pos hb]

/-- Witness for `bookmark_idempotent` on the set containing id 3. -/
theorem bookmark_idempotent_witness :
    3 ∈ ({3} : Finset Nat) ∧
    (pySetAdd (pySetAdd {3} 7) 7 = pySetAdd {3} 7 ∧
      pySetRemove ({3} : Finset Nat) 3 = some (({3} : Finset Nat).erase 3) ∧
      bmToggle {3} 3 = ({3} : Finset Nat).erase 3) :=
  ⟨by decide, bookmark_idempotent {3} 7 3 (by decide)⟩

/-- Claim C7: the 5-record demo table carries categories Basics, Hooks,
Components and twice System Design, and the category filter `System Design`
yields exactly the two records with ids 501 and 502, in that order. -/
theorem scenario_system_design :
    demoTable.length = 5 ∧
    demoTable.map Question.category
      = ["Basics", "Hooks", "Components", "System Design", "System Design"] ∧
    (categoryFilter demoTable ["System Design"]).length = 2 ∧
    (categoryFilter demoTable ["System Design"]).map Question.id = [501, 502] := by
  decide

/-- Claim C8: the Bookmarks view contains exactly the records whose id is in
the bookmark set, as an order-preserving restriction (sublist) of the table,
and it does not depend on any insertion order of the set. -/
theorem bookmark_view_order (rows : List Question) (bms : Finset Nat) :
    (∀ r, r ∈ bookmarkView rows bms ↔ r ∈ rows ∧ r.id ∈ bms) ∧
    (bookmarkView rows bms).Sublist rows ∧
    (∀ a b : Nat, bookmarkView rows (insert a (insert b ∅))
      = bookmarkView rows (insert b (insert a ∅))) := by
  refine ⟨?_, List.filter_sublist rows, ?_⟩
  · intro r
    simp [bookmarkView, List.mem_filter]
  · intro a b
    have hcomm : insert a (insert b (∅ : Finset Nat)) = insert b (insert a ∅) := by
      ext x
      constructor <;>
        · intro hx
          simp only [Finset.mem_insert] at hx ⊢
          tauto
    rw [hcomm]

/-- Claim C9: two reruns differing only in the Browse search query render the
same flashcard page (same record, same answer visibility, same recomputed
state) and give every navigation action the same effect: the flashcard view
is derived from the category-filtered table only. -/
theorem flashcard_query_noninterference (rows : List Question) (cats : List String)
    (q1 q2 : String) (st : SessionState) (a : NavAction) :
    render Mode.flashcards rows cats q1 st = render Mode.flashcards rows cats q2 st ∧
    appNavStep rows cats q1 st a = appNavStep rows cats q2 st a :=
  ⟨rfl, rfl⟩

/-- Claim C10: the flashcard recomputation performed on a category-filter
change (the cursor clamp) leaves the reveal flag and the bookmark set
unchanged, and the rendered page shows the answer of whatever record is now
under the cursor exactly when the carried-over reveal flag is set — possibly
already revealed for a record the user has not seen. -/
theorem filter_change_preserves_reveal (rows : List Question) (cats : List String)
    (st : SessionState) :
    (recomputeState rows cats st).reveal = st.reveal ∧
    (recomputeState rows cats st).bookmarks = st.bookmarks ∧
    ((flashcardPage rows cats st).2.answer).isSome
      = (!(categoryFilter rows cats).isEmpty && st.reveal) := by
  refine ⟨rfl, rfl, ?_⟩
  show (renderFlash rows cats (recomputeState rows cats st)).answer.isSome = _
  unfold renderFlash recomputeState
  cases hfd : (categoryFilter rows cats).isEmpty with
  | true => simp [hfd]
  | false =>
    have hlen : 0 < (categoryFilter rows cats).length := by
      rcases hcf : categoryFilter rows cats with _ | ⟨x, xs⟩
      · rw [hcf] at hfd
        simp at hfd
      · simp
    have hidx : recomputeCursor st.current_index (categoryFilter rows cats).length
        < (categoryFilter rows cats).length :=
      recomputeCursor_lt _ _ hlen
    cases hrev : st.reveal with
    | false => simp [hfd, hrev]
    | true =>
      simp only [hfd, hrev, Bool.not_false, Bool.and_true, if_neg Bool.false_ne_true,
        if_pos rfl]
      rw [List.getElem?_eq_getElem hidx]
      rfl

end ReactMaster
